import Mathlib

/-!
Verification of the PediCalc pediatric dosage calculator.

The TypeScript sources are shallowly embedded in Lean 4:
* JavaScript numbers are modelled as exact rationals (ℚ); the floating-point
  representation is not modelled, and the non-finite values NaN/Infinity are
  not representable in ℚ.
* A raw numeric text input (an age or weight string fed to parseFloat) is
  modelled by the inductive type RawInput: it is either empty/whitespace,
  non-numeric (parseFloat yields NaN), or a parsed rational together with the
  number of digits after the decimal point in the canonical rendering of the
  number (used by the precision warnings).
* Error and warning strings are modelled by the inductive type Msg, one
  constructor per distinct source message; values interpolated into a message
  are carried as constructor arguments.
* A `throw` caught by the enclosing try/catch is modelled with Except: the
  inner function returns `Except Msg _` and the public wrapper pattern-matches
  the error to the fallback record that the catch block builds.
-/

/-- The three safety levels of the validation library (`'safe' | 'caution' | 'danger'`). -/
inductive SafetyLevel
  | safe
  | caution
  | danger
deriving DecidableEq, Repr

/-- Age units accepted by the validation library. -/
inductive AgeUnit
  | years
  | months
  | days
deriving DecidableEq, Repr

/-- Weight units accepted by the validation library. -/
inductive WeightUnit
  | kg
  | lbs
deriving DecidableEq, Repr

/-- A raw text field as seen by the validators after `parseFloat`:
empty/whitespace-only, non-numeric, or a parsed rational `q` whose canonical
decimal rendering has `decimals` digits after the point. -/
inductive RawInput
  | empty
  | nonNumeric
  | num (q : ℚ) (decimals : ℕ)
deriving DecidableEq, Repr

/-- One constructor per source error/warning string; interpolated values are
carried as arguments (e.g. the over-max warning names the dose, the medication
and the maximum). -/
inductive Msg
  | ageRequired
  | ageNotNumeric
  | ageNotPositive
  | agePrecision
  | ageExceedsPediatricRange
  | ageMaxYears
  | ageDaysExceeds
  | ageDaysMin
  | neonateWarning
  | infantWarning
  | weightRequired
  | weightNotNumeric
  | weightNotPositive
  | weightTooLow
  | weightExceedsMax
  | weightUnusualNeonate
  | weightUnusualInfant
  | weightPrecisionGrams
  | veryLowBirthWeight
  | invalidDosageResult
  | doseNotPositive
  | doseExceedsMaxSafe
  | highDose (ratePerKg : ℚ)
  | aboveTypical (ratePerKg : ℚ)
  | overMaxDose (dose : ℚ) (medication : String) (maxDose : ℚ)
  | veryLowDose
  | cannotCalculateInvalidPatient
  | invalidDosePerKg (v : ℚ)
  | invalidWeightValue
  | weightConversionInvalid
  | dosageCalcInvalid
  | doseUnreasonablyHigh (dose : ℚ)
  | highRiskDosage
  | calcFailedVerifyInputs
  | calcFailedDueToError
  | checkPatientData
  | inputValidationFailed
deriving DecidableEq, Repr

/-- The `ValidationResult` interface of the validation library. -/
structure ValidationResult where
  isValid : Bool
  errors : List Msg
  warnings : List Msg
  normalizedValue : Option ℚ
  safetyLevel : SafetyLevel
deriving DecidableEq, Repr

-- Constants AGE_LIMITS (in months).
namespace AGE_LIMITS

def MAX_NEONATE : ℚ := 1

def MAX_INFANT : ℚ := 12

def ABSOLUTE_MAX : ℚ := 216

end AGE_LIMITS

-- Constants WEIGHT_LIMITS (in kg).
namespace WEIGHT_LIMITS

def MIN_NEONATE : ℚ := 0.5

def MAX_NEONATE : ℚ := 6

def MIN_INFANT : ℚ := 2

def MAX_INFANT : ℚ := 15

def ABSOLUTE_MIN : ℚ := 0.5

def ABSOLUTE_MAX : ℚ := 100

end WEIGHT_LIMITS

-- Constants DOSAGE_LIMITS (in mg/kg).
namespace DOSAGE_LIMITS

def MIN_DOSE : ℚ := 0.001

def MAX_DOSE : ℚ := 100

def TYPICAL_MAX : ℚ := 50

def DANGER_THRESHOLD : ℚ := 75

end DOSAGE_LIMITS

/-- Embedding of convertAgeToMonths: years ×12, days ÷30.44, months unchanged. -/
def convertAgeToMonths (age : ℚ) (unit : AgeUnit) : ℚ :=
  match unit with
  | .years => age * 12
  | .days => age / 30.44
  | .months => age

/-- Embedding of convertWeightToKg: lbs ×0.453592, kg unchanged. -/
def convertWeightToKg (weight : ℚ) (unit : WeightUnit) : ℚ :=
  match unit with
  | .lbs => weight * 0.453592
  | .kg => weight

/-- Embedding of validateAge from the validation library, with the sequence of
early returns and mutations of the source rendered as nested conditionals. -/
def validateAge (age : RawInput) (ageUnit : AgeUnit) : ValidationResult :=
  match age with
  | .empty =>
      ⟨false, [.ageRequired], [], none, .danger⟩
  | .nonNumeric =>
      ⟨false, [.ageNotNumeric], [], none, .danger⟩
  | .num ageNum decimals =>
      if ageNum ≤ 0 then
        ⟨false, [.ageNotPositive], [], none, .danger⟩
      else
        let precWarns : List Msg := if decimals > 2 then [.agePrecision] else []
        let ageInMonths := convertAgeToMonths ageNum ageUnit
        if ageInMonths > AGE_LIMITS.ABSOLUTE_MAX then
          ⟨false, [.ageExceedsPediatricRange], precWarns, some ageInMonths, .danger⟩
        else
          let bandWarns : List Msg × SafetyLevel :=
            if ageInMonths ≤ AGE_LIMITS.MAX_NEONATE then ([.neonateWarning], .caution)
            else if ageInMonths ≤ AGE_LIMITS.MAX_INFANT then ([.infantWarning], .safe)
            else ([], .safe)
          let warns := precWarns ++ bandWarns.1
          if ageUnit = .years ∧ ageNum > 18 then
            ⟨false, [.ageMaxYears], warns, some ageInMonths, .danger⟩
          else if ageUnit = .days ∧ ageNum > 6570 then
            ⟨false, [.ageDaysExceeds], warns, some ageInMonths, .danger⟩
          else if ageUnit = .days ∧ ageNum < 1 then
            ⟨false, [.ageDaysMin], warns, some ageInMonths, .danger⟩
          else
            ⟨true, [], warns, some ageInMonths, bandWarns.2⟩

/-- Embedding of validateWeight from the validation library. -/
def validateWeight (weight : RawInput) (weightUnit : WeightUnit)
    (ageInMonths : Option ℚ) : ValidationResult :=
  match weight with
  | .empty =>
      ⟨false, [.weightRequired], [], none, .danger⟩
  | .nonNumeric =>
      ⟨false, [.weightNotNumeric], [], none, .danger⟩
  | .num weightNum decimals =>
      if weightNum ≤ 0 then
        ⟨false, [.weightNotPositive], [], none, .danger⟩
      else
        let weightInKg := convertWeightToKg weightNum weightUnit
        if weightInKg < WEIGHT_LIMITS.ABSOLUTE_MIN then
          ⟨false, [.weightTooLow], [], some weightInKg, .danger⟩
        else if weightInKg > WEIGHT_LIMITS.ABSOLUTE_MAX then
          ⟨false, [.weightExceedsMax], [], some weightInKg, .danger⟩
        else
          let bandWarns : List Msg × SafetyLevel :=
            match ageInMonths with
            | some m =>
                if m ≤ AGE_LIMITS.MAX_NEONATE then
                  if weightInKg < WEIGHT_LIMITS.MIN_NEONATE ∨
                      weightInKg > WEIGHT_LIMITS.MAX_NEONATE then
                    ([.weightUnusualNeonate], .caution)
                  else ([], .safe)
                else if m ≤ AGE_LIMITS.MAX_INFANT then
                  if weightInKg < WEIGHT_LIMITS.MIN_INFANT ∨
                      weightInKg > WEIGHT_LIMITS.MAX_INFANT then
                    ([.weightUnusualInfant], .caution)
                  else ([], .safe)
                else ([], .safe)
            | none => ([], .safe)
          let warns2 := bandWarns.1 ++
            (if weightInKg < 1 ∧ decimals > 3 then [.weightPrecisionGrams] else [])
          if weightInKg < 2.5 then
            ⟨true, [], warns2 ++ [.veryLowBirthWeight], some weightInKg, .caution⟩
          else
            ⟨true, [], warns2, some weightInKg, bandWarns.2⟩

/-- Embedding of validatePatientData from the validation library: age first
with early return, then weight with the normalized age as context, then
aggregation. -/
def validatePatientData (age : RawInput) (ageUnit : AgeUnit)
    (weight : RawInput) (weightUnit : WeightUnit) : ValidationResult :=
  let ageValidation := validateAge age ageUnit
  if ¬ ageValidation.isValid then
    ⟨false, ageValidation.errors, ageValidation.warnings, none, ageValidation.safetyLevel⟩
  else
    let weightValidation := validateWeight weight weightUnit ageValidation.normalizedValue
    if ¬ weightValidation.isValid then
      ⟨false, ageValidation.errors ++ weightValidation.errors,
        ageValidation.warnings ++ weightValidation.warnings, none,
        weightValidation.safetyLevel⟩
    else
      let overall : SafetyLevel :=
        if ageValidation.safetyLevel = .danger ∨ weightValidation.safetyLevel = .danger then
          .danger
        else if ageValidation.safetyLevel = .caution ∨
            weightValidation.safetyLevel = .caution then
          .caution
        else .safe
      ⟨ageValidation.isValid && weightValidation.isValid,
        ageValidation.errors ++ weightValidation.errors,
        ageValidation.warnings ++ weightValidation.warnings, none, overall⟩

/-- Embedding of validateDosage from the validation library.  The JavaScript
truthiness test `maxDoseValue && calculatedDose > maxDoseValue` is modelled
faithfully: an undefined maximum is `none`, and a supplied maximum equal to 0
is falsy, so the medication-specific check is skipped in both cases.  The
NaN/isFinite guard of the source has no counterpart on ℚ, where every value
is finite. -/
def validateDosage (calculatedDose weightInKg : ℚ) (medication : String)
    (maxDoseValue : Option ℚ) : ValidationResult :=
  if calculatedDose ≤ 0 then
    ⟨false, [.doseNotPositive], [], some calculatedDose, .danger⟩
  else
    let dosePerKg := calculatedDose / weightInKg
    if dosePerKg > DOSAGE_LIMITS.MAX_DOSE then
      ⟨false, [.doseExceedsMaxSafe], [], some calculatedDose, .danger⟩
    else
      let band : List Msg × SafetyLevel :=
        if dosePerKg > DOSAGE_LIMITS.DANGER_THRESHOLD then
          ([.highDose dosePerKg], .danger)
        else if dosePerKg > DOSAGE_LIMITS.TYPICAL_MAX then
          ([.aboveTypical dosePerKg], .caution)
        else ([], .safe)
      let overMax : Bool :=
        match maxDoseValue with
        | none => false
        | some m => decide (m ≠ 0) && decide (calculatedDose > m)
      let afterMax : List Msg × SafetyLevel :=
        if overMax then
          (band.1 ++ [.overMaxDose calculatedDose medication (maxDoseValue.getD 0)], .caution)
        else band
      let final : List Msg × SafetyLevel :=
        if dosePerKg < DOSAGE_LIMITS.MIN_DOSE then
          (afterMax.1 ++ [.veryLowDose], .caution)
        else afterMax
      ⟨true, [], final.1, some calculatedDose, final.2⟩

/-- The PatientData interface of the error-handler module (the optional height
fields are not used by any code the claims concern). -/
structure PatientData where
  age : RawInput
  ageUnit : AgeUnit
  weight : RawInput
  weightUnit : WeightUnit
deriving DecidableEq, Repr

/-- The SafeMedicalCalculation interface of the error-handler module. -/
structure SafeMedicalCalculation where
  result : ℚ
  validation : ValidationResult
  inputValidation : ValidationResult
  isRecommended : Bool
  warnings : List Msg
deriving DecidableEq, Repr

/-- The record built by the catch block of calculateSafeDosage, with the
caught error message `e` interpolated where the source writes
`error.message`. -/
def calcSafeDosageFallback (e : Msg) : SafeMedicalCalculation :=
  { result := 0
    validation := ⟨false, [e], [.calcFailedVerifyInputs], none, .danger⟩
    inputValidation := ⟨false, [.inputValidationFailed], [], none, .danger⟩
    isRecommended := false
    warnings := [.calcFailedDueToError, .checkPatientData, e] }

/-- Whitespace-only test: the guard medicationName.trim().length === 0 of the
source holds exactly when every character of the string is whitespace (the
falsy empty string included). -/
def isBlank (s : String) : Bool := s.data.all Char.isWhitespace

/-- The try block of calculateSafeDosage: each `throw` of the source becomes
an `Except.error` carrying the thrown message.  The `parseFloat` of the weight
string at the start of the calculation is the same parse the validators see,
so it is read off the RawInput field; a non-numeric weight would throw, which
is unreachable once the input validation has succeeded. -/
def calculateSafeDosageE (patientData : PatientData) (dosePerKg : ℚ)
    (maxDoseValue : Option ℚ) (medicationName : String) :
    Except Msg SafeMedicalCalculation :=
  if dosePerKg ≤ 0 then .error (.invalidDosePerKg dosePerKg)
  else
    let medicationName := if isBlank medicationName then "unknown medication"
      else medicationName
    let inputValidation := validatePatientData patientData.age patientData.ageUnit
      patientData.weight patientData.weightUnit
    if ¬ inputValidation.isValid then
      .ok { result := 0, validation := inputValidation, inputValidation,
            isRecommended := false, warnings := [.cannotCalculateInvalidPatient] }
    else
      match patientData.weight with
      | .empty => .error .invalidWeightValue
      | .nonNumeric => .error .invalidWeightValue
      | .num weightValue _ =>
        if weightValue ≤ 0 then .error .invalidWeightValue
        else
          let weightInKg := convertWeightToKg weightValue patientData.weightUnit
          if weightInKg ≤ 0 then .error .weightConversionInvalid
          else
            let calculatedDose := dosePerKg * weightInKg
            if calculatedDose ≤ 0 then .error .dosageCalcInvalid
            else if calculatedDose > 10000 then
              .error (.doseUnreasonablyHigh calculatedDose)
            else
              let dosageValidation :=
                validateDosage calculatedDose weightInKg medicationName maxDoseValue
              .ok { result := calculatedDose
                    validation := dosageValidation
                    inputValidation
                    isRecommended := dosageValidation.isValid &&
                      dosageValidation.safetyLevel = .safe
                    warnings := inputValidation.warnings ++ dosageValidation.warnings ++
                      (if dosageValidation.safetyLevel = .danger then [.highRiskDosage]
                       else []) }

/-- Embedding of calculateSafeDosage: the try block with its catch. -/
def calculateSafeDosage (patientData : PatientData) (dosePerKg : ℚ)
    (maxDoseValue : Option ℚ) (medicationName : String) : SafeMedicalCalculation :=
  match calculateSafeDosageE patientData dosePerKg maxDoseValue medicationName with
  | .ok r => r
  | .error e => calcSafeDosageFallback e

/-- Rounding Math.round of JavaScript: round half toward positive infinity. -/
def jsRound (x : ℚ) : ℤ := ⌊x + 1/2⌋

/-- Two-decimal rounding Math.round(x*100)/100 used by calculateDoseRange. -/
def round2 (x : ℚ) : ℚ := (jsRound (x * 100) : ℚ) / 100

/-- The result record of calculateDoseRange. -/
structure DoseRange where
  minDose : ℚ
  maxDose : ℚ
  recommendedDose : ℚ
  safetyLevel : SafetyLevel
deriving DecidableEq, Repr

/-- The try block of calculateDoseRange; every `throw` becomes an error.  The
isFinite guards of the source have no counterpart on ℚ. -/
def calculateDoseRangeE (weightKg minDosePerKg maxDosePerKg : ℚ)
    (absoluteMax : Option ℚ) : Except Unit DoseRange :=
  if weightKg ≤ 0 then .error ()
  else if minDosePerKg < 0 then .error ()
  else if maxDosePerKg < 0 then .error ()
  else if minDosePerKg > maxDosePerKg then .error ()
  else
    let absMax : Option ℚ :=
      match absoluteMax with
      | some m => if m ≤ 0 then none else some m
      | none => none
    let minDose := minDosePerKg * weightKg
    let maxDose := maxDosePerKg * weightKg
    let recommendedDose := (minDose + maxDose) / 2
    let safetyLevel : SafetyLevel :=
      match absMax with
      | some m =>
          if recommendedDose > m then .danger
          else if recommendedDose > m * 0.8 then .caution
          else .safe
      | none => .safe
    .ok ⟨round2 minDose, round2 maxDose, round2 recommendedDose, safetyLevel⟩

/-- Embedding of calculateDoseRange: the try block with its catch, which
returns the all-zero record at safety level danger. -/
def calculateDoseRange (weightKg minDosePerKg maxDosePerKg : ℚ)
    (absoluteMax : Option ℚ) : DoseRange :=
  match calculateDoseRangeE weightKg minDosePerKg maxDosePerKg absoluteMax with
  | .ok r => r
  | .error _ => ⟨0, 0, 0, .danger⟩

/-- The slice of the App medication record read by the calculateDosage handler
of App.tsx.  minDosePerKg and maxDosePerKg model med.dosage.min_dose and
med.dosage.max_dose (optional numbers, used through JavaScript truthiness);
maxDoseValueField models med.max_dose.value.  The regular-expression match
of the first dosage-form string against the pattern digits-mg ... digits-mL is
modelled by its outcome concMatch: `some (X, Y)` when the pattern matched with
the two digit groups parsing to X and Y, `none` when it did not match (which
includes the case where the string lacks the mg or mL substring). -/
structure AppMedication where
  name : String
  minDosePerKg : Option ℚ
  maxDosePerKg : Option ℚ
  maxDoseValueField : Option ℚ
  frequency : String
  concMatch : Option (ℕ × ℕ)
deriving DecidableEq, Repr

/-- The calculation-result record set by the calculateDosage handler of
App.tsx.  Numeric fields hold the computed rationals; the source renders them
with toFixed before storing, which only affects display. -/
structure AppCalcResult where
  dose : ℚ
  minDose : ℚ
  maxDose : ℚ
  safetyLevel : SafetyLevel
  isOverMax : Bool
  frequency : String
  medication : String
  volume : Option ℚ
deriving DecidableEq, Repr

/-- JavaScript truthy-or on an optional number: `a || b` yields b when a is
undefined or 0. -/
def truthyOr (a : Option ℚ) (b : ℚ) : ℚ :=
  match a with
  | some v => if v = 0 then b else v
  | none => b

/-- Embedding of the calculateDosage handler of App.tsx (the dose, range,
safety and volume computation; screen navigation omitted). -/
def appCalculateDosage (med : AppMedication) (weight : ℚ)
    (weightUnit : WeightUnit) : AppCalcResult :=
  let weightInKg := if weightUnit = .lbs then weight * 0.453592 else weight
  let minDose := match med.minDosePerKg with
    | some d => if d = 0 then 0 else d * weightInKg
    | none => 0
  let maxDose := match med.maxDosePerKg with
    | some d => if d = 0 then minDose else d * weightInKg
    | none => minDose
  let recommendedDose := if maxDose > minDose then (minDose + maxDose) / 2 else minDose
  let maxDoseValue := truthyOr med.maxDoseValueField 1000
  let isOverMax : Bool := recommendedDose > maxDoseValue
  let safetyLevel : SafetyLevel :=
    if recommendedDose > maxDoseValue * 0.8 then
      (if isOverMax then .danger else .caution)
    else .safe
  let volume : Option ℚ :=
    match med.concMatch with
    | some (mgPer, mlPer) => some ((recommendedDose / mgPer) * mlPer)
    | none => none
  { dose := recommendedDose
    minDose := minDose
    maxDose := maxDose
    safetyLevel := safetyLevel
    isOverMax := isOverMax
    frequency := med.frequency
    medication := med.name
    volume := volume }

/-- Severity rank used to state the aggregation policy danger > caution > safe. -/
def sevRank : SafetyLevel → ℕ
  | .safe => 0
  | .caution => 1
  | .danger => 2

lemma convertWeightToKg_pos (q : ℚ) (u : WeightUnit) (h : 0 < q) :
    0 < convertWeightToKg q u := by
  cases u <;> simp [convertWeightToKg] <;> positivity

lemma validateWeight_invalid_danger (w : RawInput) (u : WeightUnit) (ctx : Option ℚ)
    (h : (validateWeight w u ctx).isValid = false) :
    (validateWeight w u ctx).safetyLevel = .danger := by
  cases w with
  | empty => rfl
  | nonNumeric => rfl
  | num q dd =>
      simp only [validateWeight] at h ⊢
      split_ifs at h ⊢ <;> simp_all

lemma validateAge_invalid_danger (a : RawInput) (u : AgeUnit)
    (h : (validateAge a u).isValid = false) :
    (validateAge a u).safetyLevel = .danger := by
  cases a with
  | empty => rfl
  | nonNumeric => rfl
  | num q dd =>
      simp only [validateAge] at h ⊢
      split_ifs at h ⊢ <;> simp_all

lemma validateDosage_some_zero (dose w : ℚ) (med : String) :
    validateDosage dose w med (some 0) = validateDosage dose w med none := by
  simp [validateDosage]

lemma calculateSafeDosageE_some_zero (pd : PatientData) (dpk : ℚ) (med : String) :
    calculateSafeDosageE pd dpk (some 0) med = calculateSafeDosageE pd dpk none med := by
  simp only [calculateSafeDosageE, validateDosage_some_zero]

example : (validateAge (.num 18 0) .years).isValid = true := by
  norm_num [validateAge, convertAgeToMonths, AGE_LIMITS.ABSOLUTE_MAX,
    AGE_LIMITS.MAX_NEONATE, AGE_LIMITS.MAX_INFANT]

/-- C10: supplying a medication-specific maximum dose of 0 is falsy in the
JavaScript guard, so the maximum-dose comparison is skipped entirely: both
validateDosage and calculateSafeDosage behave exactly as if no maximum had
been supplied. -/
theorem validateDosage_zero_max_skipped (dose w : ℚ) (med : String)
    (pd : PatientData) (dpk : ℚ) (medName : String) :
    validateDosage dose w med (some 0) = validateDosage dose w med none ∧
    calculateSafeDosage pd dpk (some 0) medName =
      calculateSafeDosage pd dpk none medName := by
  refine ⟨validateDosage_some_zero dose w med, ?_⟩
  simp only [calculateSafeDosage, calculateSafeDosageE_some_zero]

/-- C9: when the concentration pattern match succeeds with mg amount X and
volume Y, the administration volume is (recommendedDose / X) × Y millilitres;
when the pattern does not match, the volume is omitted and every other field
of the calculation result is unchanged, so the missing match is not an
error. -/
theorem appCalculateDosage_volume (med : AppMedication) (w : ℚ) (u : WeightUnit)
    (X Y : ℕ) :
    (med.concMatch = some (X, Y) → 0 < X →
      (appCalculateDosage med w u).volume =
        some (((appCalculateDosage med w u).dose / X) * Y)) ∧
    (med.concMatch = none → (appCalculateDosage med w u).volume = none) ∧
    (appCalculateDosage { med with concMatch := none } w u =
      { appCalculateDosage med w u with volume := none }) := by
  refine ⟨?_, ?_, ?_⟩
  · intro h _
    simp [appCalculateDosage, h]
  · intro h
    simp [appCalculateDosage, h]
  · simp [appCalculateDosage]

/-- C4: validateAge fails, with safety level danger, exactly when the input is
empty, non-numeric, not positive, normalizes to more than 216 months, exceeds
18 when given in years, or is above 6570 or below 1 when given in days; age 18
years is accepted, 18.01 years and 0 are rejected. -/
theorem validateAge_fail_iff (a : RawInput) (u : AgeUnit) :
    ((validateAge a u).isValid = false ↔
      a = .empty ∨ a = .nonNumeric ∨
        ∃ q dd, a = .num q dd ∧
          (q ≤ 0 ∨ convertAgeToMonths q u > 216 ∨ (u = .years ∧ q > 18) ∨
            (u = .days ∧ (q > 6570 ∨ q < 1)))) ∧
    ((validateAge a u).isValid = false → (validateAge a u).safetyLevel = .danger) ∧
    (validateAge (.num 18 0) .years).isValid = true ∧
    (validateAge (.num (1801/100) 2) .years).isValid = false ∧
    (∀ u2 : AgeUnit, (validateAge (.num 0 0) u2).isValid = false) := by
  refine ⟨?_, validateAge_invalid_danger a u, ?_, ?_, ?_⟩
  · cases a with
    | empty => simp [validateAge]
    | nonNumeric => simp [validateAge]
    | num q dd =>
        simp only [validateAge, AGE_LIMITS.ABSOLUTE_MAX, AGE_LIMITS.MAX_NEONATE,
          AGE_LIMITS.MAX_INFANT]
        split_ifs <;> simp_all
  · norm_num [validateAge, convertAgeToMonths, AGE_LIMITS.ABSOLUTE_MAX,
      AGE_LIMITS.MAX_NEONATE, AGE_LIMITS.MAX_INFANT]
  · norm_num [validateAge, convertAgeToMonths, AGE_LIMITS.ABSOLUTE_MAX,
      AGE_LIMITS.MAX_NEONATE, AGE_LIMITS.MAX_INFANT]
  · intro u2
    cases u2 <;> norm_num [validateAge, convertAgeToMonths]

/-- Witness for C4: age 0 years is rejected at safety level danger. -/
theorem validateAge_fail_iff_witness :
    (validateAge (.num 0 0) .years).safetyLevel = .danger :=
  (validateAge_fail_iff (.num 0 0) .years).2.1 (by norm_num [validateAge])

set_option maxHeartbeats 2000000 in
/-- C5: validateWeight fails exactly when the input is empty, non-numeric, not
positive, or outside 0.5 kg to 100 kg after conversion; an age-band mismatch
(outside 0.5 to 6 kg for a neonate, outside 2 to 15 kg for an infant) and a
weight below 2.5 kg only add caution warnings and never cause failure; 0.5 kg
and 100 kg are accepted, 0.49 kg and 100.01 kg are rejected. -/
theorem validateWeight_fail_iff (w : RawInput) (u : WeightUnit) (ctx : Option ℚ) :
    ((validateWeight w u ctx).isValid = false ↔
      w = .empty ∨ w = .nonNumeric ∨
        ∃ q dd, w = .num q dd ∧
          (q ≤ 0 ∨ convertWeightToKg q u < 0.5 ∨ convertWeightToKg q u > 100)) ∧
    (∀ q dd, w = .num q dd → 0 < q → ¬ convertWeightToKg q u < 0.5 →
      ¬ convertWeightToKg q u > 100 →
      (validateWeight w u ctx).isValid = true ∧
      (convertWeightToKg q u < 2.5 →
        Msg.veryLowBirthWeight ∈ (validateWeight w u ctx).warnings ∧
        (validateWeight w u ctx).safetyLevel = .caution) ∧
      (∀ m, ctx = some m → m ≤ 1 →
        (convertWeightToKg q u < 0.5 ∨ convertWeightToKg q u > 6) →
        Msg.weightUnusualNeonate ∈ (validateWeight w u ctx).warnings ∧
        (validateWeight w u ctx).safetyLevel = .caution) ∧
      (∀ m, ctx = some m → ¬ m ≤ 1 → m ≤ 12 →
        (convertWeightToKg q u < 2 ∨ convertWeightToKg q u > 15) →
        Msg.weightUnusualInfant ∈ (validateWeight w u ctx).warnings ∧
        (validateWeight w u ctx).safetyLevel = .caution)) ∧
    (validateWeight (.num (1/2) 1) .kg none).isValid = true ∧
    (validateWeight (.num (49/100) 2) .kg none).isValid = false ∧
    (validateWeight (.num 100 0) .kg none).isValid = true ∧
    (validateWeight (.num (10001/100) 2) .kg none).isValid = false := by
  refine ⟨?_, ?_, ?_, ?_, ?_, ?_⟩
  · cases w with
    | empty => simp [validateWeight]
    | nonNumeric => simp [validateWeight]
    | num q dd =>
        simp only [validateWeight, WEIGHT_LIMITS.ABSOLUTE_MIN,
          WEIGHT_LIMITS.ABSOLUTE_MAX, WEIGHT_LIMITS.MIN_NEONATE,
          WEIGHT_LIMITS.MAX_NEONATE, WEIGHT_LIMITS.MIN_INFANT,
          WEIGHT_LIMITS.MAX_INFANT, AGE_LIMITS.MAX_NEONATE, AGE_LIMITS.MAX_INFANT]
        rcases ctx with _ | m <;> split_ifs <;> simp_all
  · intro q dd heq hq h05 h100
    subst heq
    rcases ctx with _ | m <;>
      · simp only [validateWeight, WEIGHT_LIMITS.ABSOLUTE_MIN,
          WEIGHT_LIMITS.ABSOLUTE_MAX, WEIGHT_LIMITS.MIN_NEONATE,
          WEIGHT_LIMITS.MAX_NEONATE, WEIGHT_LIMITS.MIN_INFANT,
          WEIGHT_LIMITS.MAX_INFANT, AGE_LIMITS.MAX_NEONATE, AGE_LIMITS.MAX_INFANT]
        split_ifs <;> simp_all <;> linarith
  · norm_num [validateWeight, convertWeightToKg, WEIGHT_LIMITS.ABSOLUTE_MIN,
      WEIGHT_LIMITS.ABSOLUTE_MAX]
  · norm_num [validateWeight, convertWeightToKg, WEIGHT_LIMITS.ABSOLUTE_MIN,
      WEIGHT_LIMITS.ABSOLUTE_MAX]
  · norm_num [validateWeight, convertWeightToKg, WEIGHT_LIMITS.ABSOLUTE_MIN,
      WEIGHT_LIMITS.ABSOLUTE_MAX]
  · norm_num [validateWeight, convertWeightToKg, WEIGHT_LIMITS.ABSOLUTE_MIN,
      WEIGHT_LIMITS.ABSOLUTE_MAX]

/-- Witness for C5: a 1.8 kg weight for a 6-month-old lies below the 2 to 15 kg
infant band, so the infant-band warning fires while the input stays valid. -/
theorem validateWeight_fail_iff_witness :
    Msg.weightUnusualInfant ∈ (validateWeight (.num (9/5) 1) .kg (some 6)).warnings ∧
    (validateWeight (.num (9/5) 1) .kg (some 6)).isValid = true := by
  have h := (validateWeight_fail_iff (.num (9/5) 1) .kg (some 6)).2.1
    (9/5) 1 rfl (by norm_num) (by norm_num [convertWeightToKg])
    (by norm_num [convertWeightToKg])
  exact ⟨(h.2.2.2 6 rfl (by norm_num) (by norm_num)
    (Or.inl (by norm_num [convertWeightToKg]))).1, h.1⟩

/-- Counterexample to C7: for age 6 months validateAge succeeds and emits the
infant-band warning, yet the safety level stays safe — so a warning can be
present without the safety level being caution, refuting the claimed
equivalence. -/
theorem validateAge_warning_without_caution_cex :
    (validateAge (.num 6 0) .months).isValid = true ∧
    (validateAge (.num 6 0) .months).warnings = [.infantWarning] ∧
    (validateAge (.num 6 0) .months).safetyLevel = .safe ∧
    ¬ (validateAge (.num 6 0) .months).safetyLevel = .caution := by
  norm_num [validateAge, convertAgeToMonths, AGE_LIMITS.ABSOLUTE_MAX,
    AGE_LIMITS.MAX_NEONATE, AGE_LIMITS.MAX_INFANT]
  simp

/-- C7 as amended: on success, normalizedValue is the age in months, and the
safety level is caution exactly when the neonate band (at most 1 month)
applies, and safe otherwise; the neonate warning accompanies the caution
level, while the infant-band warning (between 1 and 12 months) and the
more-than-two-decimals precision warning are emitted without raising the
safety level. -/
theorem validateAge_success_levels (q : ℚ) (dd : ℕ) (u : AgeUnit)
    (h : (validateAge (.num q dd) u).isValid = true) :
    (validateAge (.num q dd) u).normalizedValue = some (convertAgeToMonths q u) ∧
    (validateAge (.num q dd) u).safetyLevel =
      (if convertAgeToMonths q u ≤ 1 then .caution else .safe) ∧
    (convertAgeToMonths q u ≤ 1 →
      Msg.neonateWarning ∈ (validateAge (.num q dd) u).warnings) ∧
    (¬ convertAgeToMonths q u ≤ 1 → convertAgeToMonths q u ≤ 12 →
      Msg.infantWarning ∈ (validateAge (.num q dd) u).warnings) ∧
    (dd > 2 → Msg.agePrecision ∈ (validateAge (.num q dd) u).warnings) := by
  simp only [validateAge, AGE_LIMITS.ABSOLUTE_MAX, AGE_LIMITS.MAX_NEONATE,
    AGE_LIMITS.MAX_INFANT] at h ⊢
  split_ifs at h ⊢ <;> simp_all

/-- Witness for C7: a 6-month-old is valid with normalized value 6 months,
safety level safe, and the infant warning present. -/
theorem validateAge_success_levels_witness :
    (validateAge (.num 6 0) .months).normalizedValue = some 6 ∧
    (validateAge (.num 6 0) .months).safetyLevel = .safe ∧
    Msg.infantWarning ∈ (validateAge (.num 6 0) .months).warnings := by
  have h := validateAge_success_levels 6 0 .months
    (by norm_num [validateAge, convertAgeToMonths, AGE_LIMITS.ABSOLUTE_MAX,
      AGE_LIMITS.MAX_NEONATE, AGE_LIMITS.MAX_INFANT])
  refine ⟨?_, ?_, ?_⟩
  · simpa [convertAgeToMonths] using h.1
  · have := h.2.1
    rwa [if_neg (by norm_num [convertAgeToMonths])] at this
  · exact h.2.2.2.1 (by norm_num [convertAgeToMonths]) (by norm_num [convertAgeToMonths])

lemma sevRank_combine (s t : SafetyLevel) :
    sevRank (if s = .danger ∨ t = .danger then .danger
      else if s = .caution ∨ t = .caution then .caution else .safe) =
      max (sevRank s) (sevRank t) := by
  cases s <;> cases t <;> simp [sevRank]

lemma sevRank_le_two (s : SafetyLevel) : sevRank s ≤ 2 := by
  cases s <;> simp [sevRank]

/-- C6: validatePatientData validates the age first and, when it fails,
returns its errors, warnings and safety level without the weight input having
any effect on the result; otherwise it validates the weight with the
normalized age as context, concatenates the error and warning lists in order,
takes the maximum severity of the two levels, and conjoins the two validity
flags. -/
theorem validatePatientData_aggregation (a : RawInput) (au : AgeUnit)
    (w w2 : RawInput) (wu wu2 : WeightUnit) :
    ((validateAge a au).isValid = false →
      validatePatientData a au w wu =
        ⟨false, (validateAge a au).errors, (validateAge a au).warnings, none,
          (validateAge a au).safetyLevel⟩ ∧
      validatePatientData a au w wu = validatePatientData a au w2 wu2) ∧
    ((validateAge a au).isValid = true →
      (validatePatientData a au w wu).errors =
        (validateAge a au).errors ++
          (validateWeight w wu (validateAge a au).normalizedValue).errors ∧
      (validatePatientData a au w wu).warnings =
        (validateAge a au).warnings ++
          (validateWeight w wu (validateAge a au).normalizedValue).warnings ∧
      sevRank (validatePatientData a au w wu).safetyLevel =
        max (sevRank (validateAge a au).safetyLevel)
          (sevRank (validateWeight w wu (validateAge a au).normalizedValue).safetyLevel) ∧
      (validatePatientData a au w wu).isValid =
        ((validateAge a au).isValid &&
          (validateWeight w wu (validateAge a au).normalizedValue).isValid)) := by
  constructor
  · intro h
    exact ⟨by simp [validatePatientData, h], by simp [validatePatientData, h]⟩
  · intro h
    by_cases hw : (validateWeight w wu (validateAge a au).normalizedValue).isValid
    · refine ⟨by simp [validatePatientData, h, hw], by simp [validatePatientData, h, hw],
        ?_, by simp [validatePatientData, h, hw]⟩
      have hcomb := sevRank_combine (validateAge a au).safetyLevel
        (validateWeight w wu (validateAge a au).normalizedValue).safetyLevel
      simp only [validatePatientData, h, hw] at hcomb ⊢
      simpa using hcomb
    · have hdanger := validateWeight_invalid_danger w wu
        (validateAge a au).normalizedValue (by simpa using hw)
      refine ⟨by simp [validatePatientData, h, hw], by simp [validatePatientData, h, hw],
        ?_, by simp [validatePatientData, h, hw]⟩
      have hlvl : (validatePatientData a au w wu).safetyLevel =
          (validateWeight w wu (validateAge a au).normalizedValue).safetyLevel := by
        simp [validatePatientData, h, hw]
      rw [hlvl, hdanger]
      exact (Nat.max_eq_right (sevRank_le_two _)).symm

/-- Witness for C6: a valid one-year-old with a valid 10 kg weight; both lists
concatenate, the overall level is the maximum of the two, and validity is the
conjunction. -/
theorem validatePatientData_aggregation_witness :
    (validatePatientData (.num 1 0) .years (.num 10 0) .kg).isValid =
      ((validateAge (.num 1 0) .years).isValid &&
        (validateWeight (.num 10 0) .kg
          (validateAge (.num 1 0) .years).normalizedValue).isValid) :=
  ((validatePatientData_aggregation (.num 1 0) .years (.num 10 0) .empty .kg .kg).2
    (by norm_num [validateAge, convertAgeToMonths, AGE_LIMITS.ABSOLUTE_MAX,
      AGE_LIMITS.MAX_NEONATE, AGE_LIMITS.MAX_INFANT])).2.2.2

lemma calculateSafeDosage_success (age : RawInput) (au : AgeUnit) (q : ℚ)
    (dd : ℕ) (wu : WeightUnit) (dpk : ℚ) (mdv : Option ℚ) (med : String)
    (hvalid : (validatePatientData age au (.num q dd) wu).isValid = true)
    (hq : 0 < q) (hdpk : 0 < dpk) (hmed : isBlank med = false)
    (hcap : dpk * convertWeightToKg q wu ≤ 10000) :
    calculateSafeDosage ⟨age, au, .num q dd, wu⟩ dpk mdv med =
      { result := dpk * convertWeightToKg q wu
        validation := validateDosage (dpk * convertWeightToKg q wu)
          (convertWeightToKg q wu) med mdv
        inputValidation := validatePatientData age au (.num q dd) wu
        isRecommended := (validateDosage (dpk * convertWeightToKg q wu)
            (convertWeightToKg q wu) med mdv).isValid &&
          (validateDosage (dpk * convertWeightToKg q wu)
            (convertWeightToKg q wu) med mdv).safetyLevel = .safe
        warnings := (validatePatientData age au (.num q dd) wu).warnings ++
          (validateDosage (dpk * convertWeightToKg q wu)
            (convertWeightToKg q wu) med mdv).warnings ++
          (if (validateDosage (dpk * convertWeightToKg q wu)
              (convertWeightToKg q wu) med mdv).safetyLevel = .danger
           then [.highRiskDosage] else []) } := by
  have hkg : 0 < convertWeightToKg q wu := convertWeightToKg_pos q wu hq
  have hdose : 0 < dpk * convertWeightToKg q wu := mul_pos hdpk hkg
  simp [calculateSafeDosage, calculateSafeDosageE, hmed, hvalid, hdpk.not_le,
    hq.not_le, hkg.not_le, hdose.not_le, not_lt.mpr hcap]

lemma validateDosage_overMax (dose w m : ℚ) (med : String)
    (hd : 0 < dose) (hw : 0 < w) (hrate : dose / w ≤ 100)
    (hm : m ≠ 0) (hover : m < dose) :
    (validateDosage dose w med (some m)).isValid = true ∧
    (validateDosage dose w med (some m)).safetyLevel = .caution ∧
    Msg.overMaxDose dose med m ∈ (validateDosage dose w med (some m)).warnings := by
  simp only [validateDosage, DOSAGE_LIMITS.MAX_DOSE, DOSAGE_LIMITS.DANGER_THRESHOLD,
    DOSAGE_LIMITS.TYPICAL_MAX, DOSAGE_LIMITS.MIN_DOSE]
  rw [if_neg hd.not_le, if_neg (not_lt.mpr hrate)]
  simp only [decide_eq_true hover, decide_eq_true hm, Bool.and_self, if_true,
    Option.getD_some]
  split_ifs <;> simp

/-- Counterexample to C1, in two parts, both on a valid five-year-old patient
of 10 kg with medication-specific maximum 400 mg.  First, dosePerKg 80 gives a
calculated dose of 800 mg at a per-kg rate of 80 mg/kg, which the rate check
alone classifies as danger; the over-maximum branch then sets the safety level
to caution — it does not stay at danger as the claim states.  Second,
dosePerKg 150 gives 1500 mg, which also exceeds the maximum, but the
per-kg rate 150 mg/kg triggers the over-100 hard-error early return before the
over-maximum check: the result is invalid at danger with no validation warning
at all, so no warning naming the medication and both values is appended. -/
theorem calcSafeDosage_overMax_demotes_danger_cex :
    (calculateSafeDosage ⟨.num 5 0, .years, .num 10 0, .kg⟩ 80 none "m").validation.safetyLevel
      = .danger ∧
    (calculateSafeDosage ⟨.num 5 0, .years, .num 10 0, .kg⟩ 80 (some 400)
      "m").validation.safetyLevel = .caution ∧
    (¬ (calculateSafeDosage ⟨.num 5 0, .years, .num 10 0, .kg⟩ 80 (some 400)
      "m").validation.safetyLevel = .danger) ∧
    (calculateSafeDosage ⟨.num 5 0, .years, .num 10 0, .kg⟩ 150 (some 400)
      "m").validation.safetyLevel = .danger ∧
    (calculateSafeDosage ⟨.num 5 0, .years, .num 10 0, .kg⟩ 150 (some 400)
      "m").validation.isValid = false ∧
    (calculateSafeDosage ⟨.num 5 0, .years, .num 10 0, .kg⟩ 150 (some 400)
      "m").validation.warnings = [] ∧
    Msg.overMaxDose 1500 "m" 400 ∉
      (calculateSafeDosage ⟨.num 5 0, .years, .num 10 0, .kg⟩ 150 (some 400)
        "m").warnings := by
  refine ⟨?_, ?_, ?_, ?_, ?_, ?_, ?_⟩ <;>
    norm_num [calculateSafeDosage, calculateSafeDosageE, validatePatientData,
      validateAge, validateWeight, validateDosage, convertAgeToMonths,
      convertWeightToKg, isBlank, AGE_LIMITS.ABSOLUTE_MAX, AGE_LIMITS.MAX_NEONATE,
      AGE_LIMITS.MAX_INFANT, WEIGHT_LIMITS.ABSOLUTE_MIN, WEIGHT_LIMITS.ABSOLUTE_MAX,
      WEIGHT_LIMITS.MIN_NEONATE, WEIGHT_LIMITS.MAX_NEONATE, WEIGHT_LIMITS.MIN_INFANT,
      WEIGHT_LIMITS.MAX_INFANT, DOSAGE_LIMITS.MAX_DOSE, DOSAGE_LIMITS.DANGER_THRESHOLD,
      DOSAGE_LIMITS.TYPICAL_MAX, DOSAGE_LIMITS.MIN_DOSE] <;>
    simp

/-- C1 as amended: for every validated patient and supplied nonzero
medication-specific maximum, if the calculated dose exceeds the maximum and
the per-kilogram rate does not exceed the 100 mg/kg hard-error ceiling (above
which the calculation is rejected outright and the over-maximum check never
runs), then calculateSafeDosage (via validateDosage) sets the safety level to
exactly caution — replacing even a danger level produced by the per-kilogram
rate check — appends a warning naming the medication and both the calculated
dose and the maximum, and does so even when the rate check alone classifies
the dose as safe. -/
theorem calcSafeDosage_overMax_caution (age : RawInput) (au : AgeUnit) (q : ℚ)
    (dd : ℕ) (wu : WeightUnit) (dpk m : ℚ) (med : String)
    (hvalid : (validatePatientData age au (.num q dd) wu).isValid = true)
    (hq : 0 < q) (hdpk : 0 < dpk) (hmed : isBlank med = false)
    (hrate : dpk ≤ 100)
    (hcap : dpk * convertWeightToKg q wu ≤ 10000)
    (hm : m ≠ 0) (hover : m < dpk * convertWeightToKg q wu) :
    (calculateSafeDosage ⟨age, au, .num q dd, wu⟩ dpk (some m)
      med).validation.safetyLevel = .caution ∧
    Msg.overMaxDose (dpk * convertWeightToKg q wu) med m ∈
      (calculateSafeDosage ⟨age, au, .num q dd, wu⟩ dpk (some m)
        med).validation.warnings ∧
    Msg.overMaxDose (dpk * convertWeightToKg q wu) med m ∈
      (calculateSafeDosage ⟨age, au, .num q dd, wu⟩ dpk (some m) med).warnings := by
  have hkg : 0 < convertWeightToKg q wu := convertWeightToKg_pos q wu hq
  have hdose : 0 < dpk * convertWeightToKg q wu := mul_pos hdpk hkg
  have hrate2 : dpk * convertWeightToKg q wu / convertWeightToKg q wu ≤ 100 := by
    rw [mul_div_cancel_right₀ dpk (ne_of_gt hkg)]
    exact hrate
  have hod := validateDosage_overMax (dpk * convertWeightToKg q wu)
    (convertWeightToKg q wu) m med hdose hkg hrate2 hm hover
  rw [calculateSafeDosage_success age au q dd wu dpk (some m) med hvalid hq hdpk
    hmed hcap]
  exact ⟨hod.2.1, hod.2.2, by simp [hod.2.2]⟩

/-- Witness for C1: a five-year-old of 100 kg at dosePerKg 5 — the calculated
dose 500 mg has a safe per-kg rate of 5 mg/kg, yet it exceeds the supplied
maximum of 400 mg, so the level is caution and the warning names medication,
dose and maximum. -/
theorem calcSafeDosage_overMax_caution_witness :
    (calculateSafeDosage ⟨.num 5 0, .years, .num 100 0, .kg⟩ 5 (some 400)
      "amoxicillin").validation.safetyLevel = .caution ∧
    Msg.overMaxDose 500 "amoxicillin" 400 ∈
      (calculateSafeDosage ⟨.num 5 0, .years, .num 100 0, .kg⟩ 5 (some 400)
        "amoxicillin").warnings := by
  have h := calcSafeDosage_overMax_caution (.num 5 0) .years 100 0 .kg 5 400
    "amoxicillin"
    (by norm_num [validatePatientData, validateAge, validateWeight,
      convertAgeToMonths, convertWeightToKg, AGE_LIMITS.ABSOLUTE_MAX,
      AGE_LIMITS.MAX_NEONATE, AGE_LIMITS.MAX_INFANT, WEIGHT_LIMITS.ABSOLUTE_MIN,
      WEIGHT_LIMITS.ABSOLUTE_MAX])
    (by norm_num) (by norm_num) (by decide) (by norm_num)
    (by norm_num [convertWeightToKg]) (by norm_num)
    (by norm_num [convertWeightToKg])
  refine ⟨h.1, ?_⟩
  have := h.2.2
  norm_num [convertWeightToKg] at this
  exact this

/-- C2: with no medication-specific maximum, the dosage validation classifies
by the per-kilogram rate dose/weight: above 100 mg/kg the calculation is
rejected (invalid, danger); above 75 mg/kg it stays valid at level danger;
above 50 mg/kg the level is caution; below 0.001 mg/kg a caution warning
fires; otherwise the level is safe.  Through the full pipeline, dosePerKg 10
at 30 kg gives 300 mg safe, 60 gives 1800 mg caution, 80 gives 2400 mg
danger. -/
theorem validateDosage_banding (dose w : ℚ) (med : String)
    (hw : 0 < w) (hd : 0 < dose) :
    ((dose / w > 100 → (validateDosage dose w med none).isValid = false ∧
        (validateDosage dose w med none).safetyLevel = .danger) ∧
      (dose / w > 75 → dose / w ≤ 100 →
        (validateDosage dose w med none).isValid = true ∧
        (validateDosage dose w med none).safetyLevel = .danger) ∧
      (dose / w > 50 → dose / w ≤ 75 →
        (validateDosage dose w med none).isValid = true ∧
        (validateDosage dose w med none).safetyLevel = .caution) ∧
      (dose / w < 0.001 →
        (validateDosage dose w med none).isValid = true ∧
        (validateDosage dose w med none).safetyLevel = .caution ∧
        Msg.veryLowDose ∈ (validateDosage dose w med none).warnings) ∧
      (0.001 ≤ dose / w → dose / w ≤ 50 →
        (validateDosage dose w med none).isValid = true ∧
        (validateDosage dose w med none).safetyLevel = .safe)) ∧
    (calculateSafeDosage ⟨.num 5 0, .years, .num 30 0, .kg⟩ 10 none "m").result
      = 300 ∧
    (calculateSafeDosage ⟨.num 5 0, .years, .num 30 0, .kg⟩ 10 none
      "m").validation.safetyLevel = .safe ∧
    (calculateSafeDosage ⟨.num 5 0, .years, .num 30 0, .kg⟩ 60 none "m").result
      = 1800 ∧
    (calculateSafeDosage ⟨.num 5 0, .years, .num 30 0, .kg⟩ 60 none
      "m").validation.safetyLevel = .caution ∧
    (calculateSafeDosage ⟨.num 5 0, .years, .num 30 0, .kg⟩ 80 none "m").result
      = 2400 ∧
    (calculateSafeDosage ⟨.num 5 0, .years, .num 30 0, .kg⟩ 80 none
      "m").validation.safetyLevel = .danger := by
  refine ⟨⟨?_, ?_, ?_, ?_, ?_⟩, ?_, ?_, ?_, ?_, ?_, ?_⟩
  · intro h1
    simp only [validateDosage, DOSAGE_LIMITS.MAX_DOSE, DOSAGE_LIMITS.DANGER_THRESHOLD,
      DOSAGE_LIMITS.TYPICAL_MAX, DOSAGE_LIMITS.MIN_DOSE]
    split_ifs <;> simp_all <;> linarith
  · intro h1 h2
    simp only [validateDosage, DOSAGE_LIMITS.MAX_DOSE, DOSAGE_LIMITS.DANGER_THRESHOLD,
      DOSAGE_LIMITS.TYPICAL_MAX, DOSAGE_LIMITS.MIN_DOSE]
    split_ifs <;> simp_all <;> linarith
  · intro h1 h2
    simp only [validateDosage, DOSAGE_LIMITS.MAX_DOSE, DOSAGE_LIMITS.DANGER_THRESHOLD,
      DOSAGE_LIMITS.TYPICAL_MAX, DOSAGE_LIMITS.MIN_DOSE]
    split_ifs <;> simp_all <;> linarith
  · intro h1
    simp only [validateDosage, DOSAGE_LIMITS.MAX_DOSE, DOSAGE_LIMITS.DANGER_THRESHOLD,
      DOSAGE_LIMITS.TYPICAL_MAX, DOSAGE_LIMITS.MIN_DOSE]
    split_ifs <;> simp_all <;> linarith
  · intro h1 h2
    simp only [validateDosage, DOSAGE_LIMITS.MAX_DOSE, DOSAGE_LIMITS.DANGER_THRESHOLD,
      DOSAGE_LIMITS.TYPICAL_MAX, DOSAGE_LIMITS.MIN_DOSE]
    split_ifs <;> simp_all <;> linarith
  all_goals
    norm_num [calculateSafeDosage, calculateSafeDosageE, validatePatientData,
      validateAge, validateWeight, validateDosage, convertAgeToMonths,
      convertWeightToKg, isBlank, AGE_LIMITS.ABSOLUTE_MAX, AGE_LIMITS.MAX_NEONATE,
      AGE_LIMITS.MAX_INFANT, WEIGHT_LIMITS.ABSOLUTE_MIN, WEIGHT_LIMITS.ABSOLUTE_MAX,
      WEIGHT_LIMITS.MIN_NEONATE, WEIGHT_LIMITS.MAX_NEONATE, WEIGHT_LIMITS.MIN_INFANT,
      WEIGHT_LIMITS.MAX_INFANT, DOSAGE_LIMITS.MAX_DOSE, DOSAGE_LIMITS.DANGER_THRESHOLD,
      DOSAGE_LIMITS.TYPICAL_MAX, DOSAGE_LIMITS.MIN_DOSE]

/-- Witness for C2: 300 mg at 30 kg is a 10 mg/kg rate, classified safe. -/
theorem validateDosage_banding_witness :
    (validateDosage 300 30 "m" none).isValid = true ∧
    (validateDosage 300 30 "m" none).safetyLevel = .safe :=
  ((validateDosage_banding 300 30 "m" (by norm_num) (by norm_num)).1.2.2.2.2
    (by norm_num) (by norm_num))

/-- C3: calculateSafeDosage never lets an exception escape — every throw is
caught and turned into a fully populated failure record: when the computed
dose dosePerKg × weightInKg is not positive or exceeds the 10000 mg sanity
ceiling, the result is invalid at level danger with an explanatory error and
numeric result 0 (the non-finite case has no counterpart on ℚ). -/
theorem calcSafeDosage_rejects_unreasonable (age : RawInput) (au : AgeUnit)
    (q : ℚ) (dd : ℕ) (wu : WeightUnit) (dpk : ℚ) (mdv : Option ℚ) (med : String)
    (hvalid : (validatePatientData age au (.num q dd) wu).isValid = true)
    (hq : 0 < q)
    (hbad : dpk * convertWeightToKg q wu ≤ 0 ∨
      10000 < dpk * convertWeightToKg q wu) :
    (calculateSafeDosage ⟨age, au, .num q dd, wu⟩ dpk mdv
      med).validation.isValid = false ∧
    (calculateSafeDosage ⟨age, au, .num q dd, wu⟩ dpk mdv
      med).validation.safetyLevel = .danger ∧
    (calculateSafeDosage ⟨age, au, .num q dd, wu⟩ dpk mdv
      med).validation.errors ≠ [] ∧
    (calculateSafeDosage ⟨age, au, .num q dd, wu⟩ dpk mdv med).result = 0 := by
  have hkg : 0 < convertWeightToKg q wu := convertWeightToKg_pos q wu hq
  rcases hbad with hbad | hbad
  · have hdpk : dpk ≤ 0 := by
      by_contra hc
      push_neg at hc
      nlinarith [mul_pos hc hkg]
    simp [calculateSafeDosage, calculateSafeDosageE, hdpk, calcSafeDosageFallback]
  · have hdpk : 0 < dpk := by
      by_contra hc
      push_neg at hc
      nlinarith [mul_nonneg (neg_nonneg.mpr hc) hkg.le]
    have hdose : 0 < dpk * convertWeightToKg q wu := mul_pos hdpk hkg
    simp [calculateSafeDosage, calculateSafeDosageE, hvalid, hdpk.not_le,
      hq.not_le, hkg.not_le, hdose.not_le, hbad, calcSafeDosageFallback]

/-- Witness for C3: dosePerKg 200 at 60 kg computes 12000 mg, above the
10000 mg ceiling, and is rejected with result 0 at level danger. -/
theorem calcSafeDosage_rejects_unreasonable_witness :
    (calculateSafeDosage ⟨.num 5 0, .years, .num 60 0, .kg⟩ 200 none
      "m").validation.isValid = false ∧
    (calculateSafeDosage ⟨.num 5 0, .years, .num 60 0, .kg⟩ 200 none
      "m").validation.safetyLevel = .danger ∧
    (calculateSafeDosage ⟨.num 5 0, .years, .num 60 0, .kg⟩ 200 none
      "m").validation.errors ≠ [] ∧
    (calculateSafeDosage ⟨.num 5 0, .years, .num 60 0, .kg⟩ 200 none
      "m").result = 0 :=
  calcSafeDosage_rejects_unreasonable (.num 5 0) .years 60 0 .kg 200 none "m"
    (by norm_num [validatePatientData, validateAge, validateWeight,
      convertAgeToMonths, convertWeightToKg, AGE_LIMITS.ABSOLUTE_MAX,
      AGE_LIMITS.MAX_NEONATE, AGE_LIMITS.MAX_INFANT, WEIGHT_LIMITS.ABSOLUTE_MIN,
      WEIGHT_LIMITS.ABSOLUTE_MAX])
    (by norm_num)
    (Or.inr (by norm_num [convertWeightToKg]))

/-- C8: for a positive weight and ordered nonnegative per-kg bounds,
calculateDoseRange returns minDose, maxDose and the midpoint recommendedDose,
each rounded to two decimals; with a positive absoluteMax the level is danger
exactly when the (unrounded) midpoint exceeds it and caution exactly when the
midpoint exceeds 0.8 of it without exceeding it, while a missing or
nonpositive absoluteMax is ignored and yields safe; when min exceeds max the
result is the all-zero record at level danger; weight 20 with bounds 10 and 20
gives 200, 400, 300 and safe. -/
theorem calculateDoseRange_spec (w mn mx : ℚ) (am : Option ℚ) :
    (0 < w → 0 ≤ mn → mn ≤ mx →
      (calculateDoseRange w mn mx am).minDose = round2 (mn * w) ∧
      (calculateDoseRange w mn mx am).maxDose = round2 (mx * w) ∧
      (calculateDoseRange w mn mx am).recommendedDose =
        round2 ((mn * w + mx * w) / 2) ∧
      (∀ m, am = some m → 0 < m →
        ((calculateDoseRange w mn mx am).safetyLevel = .danger ↔
          (mn * w + mx * w) / 2 > m) ∧
        ((calculateDoseRange w mn mx am).safetyLevel = .caution ↔
          ((mn * w + mx * w) / 2 ≤ m ∧ (mn * w + mx * w) / 2 > m * 0.8))) ∧
      (am = none → (calculateDoseRange w mn mx am).safetyLevel = .safe) ∧
      (∀ m, am = some m → m ≤ 0 →
        calculateDoseRange w mn mx am = calculateDoseRange w mn mx none)) ∧
    (mn > mx → calculateDoseRange w mn mx am = ⟨0, 0, 0, .danger⟩) ∧
    calculateDoseRange 20 10 20 none = ⟨200, 400, 300, .safe⟩ := by
  refine ⟨?_, ?_, ?_⟩
  · intro hw h0 hmn
    have h0x : 0 ≤ mx := h0.trans hmn
    simp only [calculateDoseRange, calculateDoseRangeE, hw.not_le, not_lt.mpr h0,
      not_lt.mpr h0x, not_lt.mpr hmn, if_false]
    refine ⟨by trivial, by trivial, by trivial, ?_, ?_, ?_⟩
    · intro m ham hm
      subst ham
      simp only [not_le.mpr hm, if_false]
      constructor
      · constructor <;> intro h <;> (split_ifs at h ⊢ <;> simp_all)
      · constructor
        · intro h
          split_ifs at h <;> simp_all <;> constructor <;> linarith
        · intro h
          split_ifs <;> simp_all <;> linarith
    · intro ham
      subst ham
      simp
    · intro m ham hm
      subst ham
      simp [hm]
  · intro h
    simp only [calculateDoseRange, calculateDoseRangeE]
    split_ifs <;> simp_all
  · norm_num [calculateDoseRange, calculateDoseRangeE, round2, jsRound]

/-- Witness for C8: the scenario of the spec with weight 20 kg and bounds
10 and 20 mg/kg. -/
theorem calculateDoseRange_spec_witness :
    (calculateDoseRange 20 10 20 none).minDose = round2 (10 * 20) ∧
    (calculateDoseRange 20 10 20 none).safetyLevel = .safe := by
  have h := (calculateDoseRange_spec 20 10 20 none).1 (by norm_num) (by norm_num)
    (by norm_num)
  exact ⟨h.1, h.2.2.2.2.1 rfl⟩

/-- Witness for the volume derivation: a liquid formulation of 250 mg per
5 mL, 20–40 mg/kg dosing at 10 kg, recommended dose 300 mg, volume 6 mL. -/
theorem appCalculateDosage_volume_witness :
    (appCalculateDosage ⟨"amoxicillin", some 20, some 40, some 1000, "BID",
        some (250, 5)⟩ 10 .kg).volume =
      some (((appCalculateDosage ⟨"amoxicillin", some 20, some 40, some 1000, "BID",
        some (250, 5)⟩ 10 .kg).dose / 250) * 5) ∧
    (appCalculateDosage ⟨"amoxicillin", some 20, some 40, some 1000, "BID",
        some (250, 5)⟩ 10 .kg).volume = some 6 := by
  constructor
  · exact (appCalculateDosage_volume ⟨"amoxicillin", some 20, some 40, some 1000,
      "BID", some (250, 5)⟩ 10 .kg 250 5).1 rfl (by norm_num)
  · simp [appCalculateDosage, truthyOr]
    norm_num
